import Mathlib

/-!
Verification of the concurrent download orchestration core of the
yt-video-downloader system.

This file gives a shallow embedding, in Lean, of the parts of the source
relevant to the batch-download ordering, resume-checkpoint, progress
aggregation, retry/backoff, and configuration-clamping behaviour.  The
embedded code lives in

  * `src/services/download_manager.py`  (queue, resume, progress, batch),
  * `src/config/error_handling.py`      (classification, retry, backoff),
  * `src/models/core.py`                (`DownloadConfig` and friends).

Python strings are modelled as `List Char`, Python `int` as `Int`/`Nat`
(Python integers are unbounded, so no wraparound modelling is needed), and
Python `float` arithmetic is modelled exactly over `ℚ` (the concrete
values appearing in the source - percentages, delays, jitter factors -
are all exactly representable, so no rounding model is required for the
properties proved here).  Calls into external collaborators (yt-dlp, the
filesystem, the thread pool) are modelled as explicit function parameters:
the filesystem is a map from path to file size, the nondeterministic
completion order of the thread pool is an explicit permutation parameter,
and `random.random()` is an explicit rational parameter.
-/

/-- Python strings, modelled as lists of characters. -/
abbrev Str := List Char

/-- Model of Python `str.lower()` (the source only lowercases ASCII error
messages and URLs, for which `Char.toLower` agrees with Python). -/
def lowerStr (s : Str) : Str := s.map Char.toLower

/-- Model of the Python substring test `pat in s`. -/
def containsSub (s pat : Str) : Bool := decide (pat <:+: s)

/-! ### Error taxonomy (`src/config/error_handling.py`)

The Python code dispatches on the exception class hierarchy:
`YouTubeDownloaderError` with subclasses `NetworkError` (itself with
subclass `RateLimitError`), `ContentError` (with subclasses
`GeoRestrictedError`, `AgeRestrictedError`, `PrivateVideoError`),
`FileSystemError`, `ProcessingError`, `ConfigurationError`,
`ValidationError`.  The hierarchy is flattened into one kind per leaf
class; the `isinstance` dispatch order of `ErrorHandler.handle_error`
(lines 184-198) is reproduced by matching on the kind, with the
more-specific classes (rate limit; geo/age/private) tested before their
parents (network; content), exactly as in the source. -/

inductive ErrKind : Type where
  | geoRestricted : ErrKind
  | ageRestricted : ErrKind
  | privateVideo : ErrKind
  | rateLimit : ErrKind
  | network : ErrKind
  | content : ErrKind
  | filesystem : ErrKind
  | processing : ErrKind
  | configuration : ErrKind
  | validationKind : ErrKind
  | generic : ErrKind
deriving DecidableEq

/-- A classified error: its (leaf) class, its message (`str(error)`), and,
for `RateLimitError`, the optional `retry_after` attribute. -/
structure ClassifiedError : Type where
  kind : ErrKind
  message : Str
  retryAfter : Option Nat := none

/-- State of `ErrorHandler.__init__` (`src/config/error_handling.py`
lines 146-152): retry bound and backoff constants.  The mutable
`error_counts` dictionary and the logger only feed logging and are not
modelled. -/
structure ErrorHandler : Type where
  max_retries : Nat
  base_delay : ℚ
  max_delay : ℚ
  jitter_factor : ℚ

/-- The handler as constructed by `ErrorHandler.__init__`:
`max_retries=3`, `base_delay=1.0`, `max_delay=60.0`, `jitter_factor=0.1`.
No code path mutates these fields. -/
def defaultErrorHandler : ErrorHandler :=
  { max_retries := 3, base_delay := 1, max_delay := 60, jitter_factor := 1/10 }

/-- Keyword list of `ErrorHandler._should_retry_network_error`
(line 206): `['timeout', 'connection', 'network', 'dns']`. -/
def networkRetryKeywords : List Str :=
  ["timeout".data, "connection".data, "network".data, "dns".data]

/-- `ErrorHandler._should_retry_network_error` (lines 200-208). -/
def should_retry_network_error (h : ErrorHandler) (message : Str) (retry_count : Nat) : Bool :=
  if h.max_retries ≤ retry_count then false
  else networkRetryKeywords.any (fun k => containsSub (lowerStr message) k)

/-- `ErrorHandler._should_retry_filesystem_error` (lines 210-218). -/
def should_retry_filesystem_error (h : ErrorHandler) (message : Str) (retry_count : Nat) : Bool :=
  if h.max_retries ≤ retry_count then false
  else ["busy".data, "locked".data, "temporary".data].any
    (fun k => containsSub (lowerStr message) k)

/-- `ErrorHandler._should_retry_processing_error` (lines 220-222). -/
def should_retry_processing_error (retry_count : Nat) : Bool :=
  decide (retry_count < 1)

/-- `ErrorHandler._should_retry_rate_limit_error` (lines 224-230). -/
def should_retry_rate_limit_error (h : ErrorHandler) (retry_count : Nat) : Bool :=
  if h.max_retries ≤ retry_count then false else true

/-- `ErrorHandler._should_retry_content_error` (lines 232-240). -/
def should_retry_content_error (message : Str) (retry_count : Nat) : Bool :=
  if 1 ≤ retry_count then false
  else ["temporary".data, "unavailable".data, "server error".data, "5xx".data].any
    (fun k => containsSub (lowerStr message) k)

/-- `ErrorHandler.handle_error` (lines 154-198), the retry decision.
Logging and the `error_counts` update have no effect on the returned
value and are omitted.  The `isinstance` chain maps to kinds as follows:
`RateLimitError` → `rateLimit`; `NetworkError` → `network` (the
`rateLimit` kind was already caught by the earlier branch, mirroring the
subclass test order); the tuple `(GeoRestrictedError, AgeRestrictedError,
PrivateVideoError)` → those three kinds; `ContentError` → `content`;
`FileSystemError` → `filesystem`; `ProcessingError` → `processing`; the
final `else` catches `ConfigurationError`, `ValidationError` and any
other exception. -/
def handle_error (h : ErrorHandler) (e : ClassifiedError) (retry_count : Nat) : Bool :=
  match e.kind with
  | .rateLimit => should_retry_rate_limit_error h retry_count
  | .network => should_retry_network_error h e.message retry_count
  | .geoRestricted => false
  | .ageRestricted => false
  | .privateVideo => false
  | .content => should_retry_content_error e.message retry_count
  | .filesystem => should_retry_filesystem_error h e.message retry_count
  | .processing => should_retry_processing_error retry_count
  | .configuration => decide (retry_count < h.max_retries)
  | .validationKind => decide (retry_count < h.max_retries)
  | .generic => decide (retry_count < h.max_retries)

/-- Python truthiness of `error.retry_after` (`Optional[int]`): `None`
and `0` are falsy, every other integer is truthy. -/
def optNatTruthy : Option Nat → Bool
  | none => false
  | some v => decide (v ≠ 0)

/-- The guard `isinstance(error, RateLimitError) and error.retry_after`
of `ErrorHandler.get_retry_delay` (line 247). -/
def isRateLimitWithRetryAfter : Option ClassifiedError → Bool
  | none => false
  | some err => decide (err.kind = ErrKind.rateLimit) && optNatTruthy err.retryAfter

/-- The exponential part of `ErrorHandler.get_retry_delay` (lines
251-254): `delay = min(base_delay * 2 ** retry_count, max_delay)`. -/
def exponentialDelay (h : ErrorHandler) (retry_count : Nat) : ℚ :=
  min (h.base_delay * 2 ^ retry_count) h.max_delay

/-- `ErrorHandler.get_retry_delay` (lines 242-259).  `rand` models the
value returned by `random.random()` (a value in `[0, 1)`). -/
def get_retry_delay (h : ErrorHandler) (retry_count : Nat) (error : Option ClassifiedError)
    (rand : ℚ) : ℚ :=
  if isRateLimitWithRetryAfter error then
    (((error.bind ClassifiedError.retryAfter).getD 0 : Nat) : ℚ)
  else
    let delay := exponentialDelay h retry_count
    delay + delay * h.jitter_factor * rand

/-! ### Keyword classification (`ErrorHandler.classify_yt_dlp_error`,
lines 265-344).  Each branch tests its keyword list against the lowered
message and wraps the original message behind a fixed prefix. -/

/-- Geo-restriction keywords (lines 278-281). -/
def geoKeywords : List Str :=
  ["geo".data, "country".data, "region".data, "location".data,
   "not available in your country".data, "blocked in your country".data,
   "geographic".data]

/-- Age-restriction keywords (lines 288-290). -/
def ageKeywords : List Str :=
  ["age".data, "sign in".data, "login".data, "account".data,
   "restricted".data, "mature".data]

/-- Private/deleted-video keywords (lines 297-300). -/
def privateKeywords : List Str :=
  ["private".data, "deleted".data, "removed".data, "unavailable".data,
   "not found".data, "404".data, "does not exist".data]

/-- Rate-limiting keywords (lines 307-309). -/
def rateLimitKeywords : List Str :=
  ["rate limit".data, "too many requests".data, "429".data,
   "quota".data, "throttle".data]

/-- Network keywords (lines 322-325). -/
def networkKeywords : List Str :=
  ["network".data, "connection".data, "timeout".data, "dns".data,
   "resolve".data, "unreachable".data, "refused".data, "reset".data]

/-- Processing keywords (lines 332-334). -/
def processingKeywords : List Str :=
  ["ffmpeg".data, "format".data, "codec".data, "conversion".data,
   "processing".data]

/-- Helper for `findRetryAfter`: the numeric value of a digit run read
left to right (how Python's `int()` reads the regex capture). -/
def digitsToNat (s : Str) : Nat :=
  s.foldl (fun a c => a * 10 + (c.toNat - 48)) 0

/-- Helper for `findRetryAfter`: the first maximal digit run of `s`,
as a number. -/
def firstDigitRun : Str → Option Nat
  | [] => none
  | c :: t =>
    if c.isDigit then some (digitsToNat (c :: t.takeWhile Char.isDigit))
    else firstDigitRun t

/-- Helper for `findRetryAfter`: the suffix of `s` after the first
occurrence of `pat`, if any. -/
def suffixAfterFirst (pat : Str) : Str → Option Str
  | [] => if pat.isEmpty then some [] else none
  | c :: t =>
    if pat <+: (c :: t) then some ((c :: t).drop pat.length)
    else suffixAfterFirst pat t

/-- Model of `re.search(r'retry.*?(\d+)', error_message)` followed by
`int(match.group(1))` (lines 312-313): the first maximal digit run after
the first occurrence of `"retry"`, if both exist.  (This matches the
regex - whose lazy `.*?` makes the match start at the first `"retry"`
and capture the earliest following digit run - for messages without
newline characters; `.` does not cross newlines in Python, but no
claim depends on messages containing newlines.) -/
def findRetryAfter (m : Str) : Option Nat :=
  (suffixAfterFirst ("retry".data) m).bind firstDigitRun

/-- `ErrorHandler.classify_yt_dlp_error` (lines 265-344): keyword
classification of a raw yt-dlp error message into a classified error,
evaluated in the source's fixed branch order.  Each constructed error
carries the wrapped message `f"<prefix>: {str(error)}"` exactly as the
source builds it. -/
def classify_yt_dlp_error (rawMessage : Str) : ClassifiedError :=
  if geoKeywords.any (fun k => containsSub (lowerStr rawMessage) k) then
    { kind := .geoRestricted,
      message := "Content is geo-restricted: ".data ++ rawMessage }
  else if ageKeywords.any (fun k => containsSub (lowerStr rawMessage) k) then
    { kind := .ageRestricted,
      message := "Content is age-restricted: ".data ++ rawMessage }
  else if privateKeywords.any (fun k => containsSub (lowerStr rawMessage) k) then
    { kind := .privateVideo,
      message := "Video is private or deleted: ".data ++ rawMessage }
  else if rateLimitKeywords.any (fun k => containsSub (lowerStr rawMessage) k) then
    { kind := .rateLimit,
      message := "Rate limited: ".data ++ rawMessage,
      retryAfter := findRetryAfter (lowerStr rawMessage) }
  else if networkKeywords.any (fun k => containsSub (lowerStr rawMessage) k) then
    { kind := .network,
      message := "Network error: ".data ++ rawMessage }
  else if processingKeywords.any (fun k => containsSub (lowerStr rawMessage) k) then
    { kind := .processing,
      message := "Processing error: ".data ++ rawMessage }
  else
    { kind := .content,
      message := "Content error: ".data ++ rawMessage }

/-! ### Configuration (`src/models/core.py`) -/

/-- `DownloadConfig` (`src/models/core.py` lines 43-62).  The nested
`format_preferences` dataclass is a plain record of four constant-default
fields that no verified property touches; it is omitted here. -/
structure DownloadConfig : Type where
  output_directory : Str
  quality : Str
  format_preference : Str
  audio_format : Str
  split_timestamps : Bool
  max_parallel_downloads : Int
  save_thumbnails : Bool
  save_metadata : Bool
  resume_downloads : Bool
  retry_attempts : Int
  download_subtitles : Bool
  subtitle_languages : List Str
  subtitle_format : Str
  auto_generated_subtitles : Bool
  use_archive : Bool
  skip_duplicates : Bool

/-- `DownloadConfig.__post_init__` (`src/models/core.py` lines 64-74):
the validation run by the dataclass machinery at construction, which
clamps `max_parallel_downloads` into `[1, 10]` and `retry_attempts` into
`[0, 10]` in place.  Modelled as a function from the raw field values to
the constructed object. -/
def downloadConfigPostInit (c : DownloadConfig) : DownloadConfig :=
  { c with
    max_parallel_downloads :=
      if c.max_parallel_downloads < 1 then 1
      else if c.max_parallel_downloads > 10 then 10
      else c.max_parallel_downloads,
    retry_attempts :=
      if c.retry_attempts < 0 then 0
      else if c.retry_attempts > 10 then 10
      else c.retry_attempts }

/-- The `_max_workers` field as set by `DownloadManager.__init__`
(`src/services/download_manager.py` line 550):
`max(1, min(max_workers, 10))`. -/
def downloadManagerInitWorkers (max_workers : Int) : Int :=
  max 1 (min max_workers 10)

/-- The `_max_workers` field as set by
`DownloadManager.set_parallel_workers`
(`src/services/download_manager.py` line 583):
`max(1, min(count, 10))`. -/
def set_parallel_workers (count : Int) : Int :=
  max 1 (min count 10)

/-- C10: after construction the configuration's parallelism lies in
`[1, 10]` and its retry-attempts value lies in `[0, 10]`; out-of-range
inputs are clamped to the nearest bound (the `if` chains equal
`max lo (min x hi)`), no error is raised, and
`DownloadManager.__init__` / `set_parallel_workers` apply the identical
clamp to the worker count. -/
theorem config_values_clamped (c : DownloadConfig) (k : Int) :
    1 ≤ (downloadConfigPostInit c).max_parallel_downloads ∧
    (downloadConfigPostInit c).max_parallel_downloads ≤ 10 ∧
    0 ≤ (downloadConfigPostInit c).retry_attempts ∧
    (downloadConfigPostInit c).retry_attempts ≤ 10 ∧
    (downloadConfigPostInit c).max_parallel_downloads
      = max 1 (min c.max_parallel_downloads 10) ∧
    (downloadConfigPostInit c).retry_attempts
      = max 0 (min c.retry_attempts 10) ∧
    downloadManagerInitWorkers k = max 1 (min k 10) ∧
    set_parallel_workers k
      = (downloadConfigPostInit
          { c with max_parallel_downloads := k }).max_parallel_downloads := by
  refine ⟨?_, ?_, ?_, ?_, ?_, ?_, ?_, ?_⟩ <;>
    simp only [downloadConfigPostInit, downloadManagerInitWorkers, set_parallel_workers] <;>
    omega

/-- C8: errors classified as content-permanent (geo-restricted,
age-restricted, or private/deleted video) are never retried by
`ErrorHandler.handle_error`, for every retry count. -/
theorem content_permanent_never_retried (h : ErrorHandler) (e : ClassifiedError)
    (retry_count : Nat)
    (hk : e.kind = ErrKind.geoRestricted ∨ e.kind = ErrKind.ageRestricted ∨
      e.kind = ErrKind.privateVideo) :
    handle_error h e retry_count = false := by
  rcases hk with hk | hk | hk <;> simp [handle_error, hk]

/-- Witness for `content_permanent_never_retried`: the message
`"Video is private"` classifies as a private-video error and is not
retried at retry count 0 even though attempts remain. -/
theorem content_permanent_never_retried_witness :
    ((classify_yt_dlp_error ("Video is private".data)).kind = ErrKind.geoRestricted ∨
      (classify_yt_dlp_error ("Video is private".data)).kind = ErrKind.ageRestricted ∨
      (classify_yt_dlp_error ("Video is private".data)).kind = ErrKind.privateVideo) ∧
    handle_error defaultErrorHandler (classify_yt_dlp_error ("Video is private".data)) 0
      = false :=
  ⟨by decide,
   content_permanent_never_retried defaultErrorHandler
     (classify_yt_dlp_error ("Video is private".data)) 0 (by decide)⟩

/-- If `classify_yt_dlp_error` lands in the network branch, the
constructed message is the original one behind the literal prefix
`"Network error: "` (line 327 of `src/config/error_handling.py`). -/
theorem classify_network_message (raw : Str)
    (hk : (classify_yt_dlp_error raw).kind = ErrKind.network) :
    (classify_yt_dlp_error raw).message = "Network error: ".data ++ raw := by
  unfold classify_yt_dlp_error at hk ⊢
  split_ifs at hk ⊢ with h1 h2 h3 h4 h5 h6
  all_goals simp_all

/-- The lowered message of a network-classified error always contains
the keyword `"network"`, contributed by the classification prefix
itself. -/
theorem classified_network_contains_keyword (raw : Str)
    (hk : (classify_yt_dlp_error raw).kind = ErrKind.network) :
    containsSub (lowerStr (classify_yt_dlp_error raw).message) ("network".data) = true := by
  rw [classify_network_message raw hk]
  unfold containsSub
  rw [decide_eq_true_eq, lowerStr, List.map_append]
  have h1 : ("Network error: ".data.map Char.toLower) = "network error: ".data := by decide
  rw [h1]
  refine ⟨[], " error: ".data ++ raw.map Char.toLower, ?_⟩
  rw [List.nil_append, ← List.append_assoc]
  have h2 : ("network".data ++ " error: ".data) = "network error: ".data := by decide
  rw [h2]

/-- C3 (amended): an error classified into the network category is
retried exactly when the retry count is below `max_retries`.  The
retryable keyword list of `_should_retry_network_error` is
`['timeout', 'connection', 'network', 'dns']` - it contains `'network'`,
and since `classify_yt_dlp_error` prefixes every network-classified
message with `"Network error: "`, the keyword test is always satisfied
for classified errors, so the retry decision degenerates to the retry
count bound alone. -/
theorem network_retry_decision (h : ErrorHandler) (raw : Str) (retry_count : Nat)
    (hk : (classify_yt_dlp_error raw).kind = ErrKind.network) :
    (handle_error h (classify_yt_dlp_error raw) retry_count = true ↔
      retry_count < h.max_retries) := by
  have hnet := classified_network_contains_keyword raw hk
  rw [show handle_error h (classify_yt_dlp_error raw) retry_count
      = should_retry_network_error h (classify_yt_dlp_error raw).message retry_count from by
    unfold handle_error
    rw [hk]]
  unfold should_retry_network_error
  rcases le_or_lt h.max_retries retry_count with hle | hlt
  · rw [if_pos hle]
    simp only [Bool.false_eq_true, false_iff]
    omega
  · rw [if_neg (by omega)]
    simp only [List.any_eq_true, iff_true_intro hlt, iff_true]
    exact ⟨"network".data, by simp [networkRetryKeywords], hnet⟩

/-- Witness for `network_retry_decision`: the raw message
`"host unreachable"` classifies as a network error and is retried at
retry count 1 with the default handler. -/
theorem network_retry_decision_witness :
    (classify_yt_dlp_error ("host unreachable".data)).kind = ErrKind.network ∧
    (handle_error defaultErrorHandler (classify_yt_dlp_error ("host unreachable".data)) 1
        = true ↔ 1 < defaultErrorHandler.max_retries) :=
  ⟨by decide,
   network_retry_decision defaultErrorHandler ("host unreachable".data) 1 (by decide)⟩

/-- Counterexample to C3 as stated: the raw yt-dlp message
`"host unreachable"` is classified into the network category, its
message contains none of the keywords `timeout`, `connection`, `dns`,
and yet `handle_error` retries it at retry count 0 (the match is on the
fourth keyword, `network`, injected by the classification prefix). -/
theorem network_retry_keyword_counterexample :
    (classify_yt_dlp_error ("host unreachable".data)).kind = ErrKind.network ∧
    containsSub (lowerStr (classify_yt_dlp_error ("host unreachable".data)).message)
      ("timeout".data) = false ∧
    containsSub (lowerStr (classify_yt_dlp_error ("host unreachable".data)).message)
      ("connection".data) = false ∧
    containsSub (lowerStr (classify_yt_dlp_error ("host unreachable".data)).message)
      ("dns".data) = false ∧
    handle_error defaultErrorHandler (classify_yt_dlp_error ("host unreachable".data)) 0
      = true := by
  refine ⟨by decide, by decide, by decide, by decide, by decide⟩

/-- C7 (amended): a rate-limit classified error carrying a nonzero
`retry_after` yields a delay of exactly that value, for every attempt
number and every jitter draw, bypassing the exponential computation. -/
theorem rate_limit_delay_override (h : ErrorHandler) (retry_count : Nat) (msg : Str)
    (v : Nat) (rand : ℚ) (hv : v ≠ 0) :
    get_retry_delay h retry_count
      (some { kind := ErrKind.rateLimit, message := msg, retryAfter := some v }) rand
      = (v : ℚ) := by
  unfold get_retry_delay isRateLimitWithRetryAfter optNatTruthy
  simp [hv]

/-- Witness for `rate_limit_delay_override`: `retry_after=30` yields a
delay of exactly 30.0 at attempt 7 (the spec's worked example). -/
theorem rate_limit_delay_override_witness :
    (30 : Nat) ≠ 0 ∧
    get_retry_delay defaultErrorHandler 7
      (some { kind := ErrKind.rateLimit,
              message := "Rate limited: retry in 30 seconds".data,
              retryAfter := some 30 }) (1/3) = (30 : ℚ) :=
  ⟨by decide,
   rate_limit_delay_override defaultErrorHandler 7
     ("Rate limited: retry in 30 seconds".data) 30 (1/3) (by decide)⟩

/-- Counterexample to C7 as stated: a rate-limit error carrying
`retry_after = 0` does NOT get a delay of its `retry_after` value.
Python's `and error.retry_after` guard treats `0` as falsy, so the
exponential path runs instead and (at attempt 0, jitter draw 0) returns
`1.0`, not `0.0`. -/
theorem rate_limit_delay_zero_counterexample :
    get_retry_delay defaultErrorHandler 0
      (some { kind := ErrKind.rateLimit, message := "Rate limited: retry after 0".data,
              retryAfter := some 0 }) 0 = 1 ∧ (1 : ℚ) ≠ 0 := by
  constructor
  · unfold get_retry_delay isRateLimitWithRetryAfter optNatTruthy exponentialDelay
      defaultErrorHandler
    norm_num
  · norm_num

/-- C9: for a retryable non-rate-limit error under the handler's
constants (`base=1.0`, `max=60.0`, `jitter_factor=0.1`), the delay
ignoring jitter, `min(base * 2 ** attempt, max_delay)`, is non-decreasing
in the attempt number, and the delay including jitter with any draw in
`[0, 1]` is at most `max_delay * (1 + jitter_factor)`. -/
theorem backoff_monotone_and_bounded (e : ClassifiedError) (retry_count : Nat) (rand : ℚ)
    (hk : e.kind ≠ ErrKind.rateLimit) (h0 : 0 ≤ rand) (h1 : rand ≤ 1) :
    exponentialDelay defaultErrorHandler retry_count
      ≤ exponentialDelay defaultErrorHandler (retry_count + 1) ∧
    get_retry_delay defaultErrorHandler retry_count (some e) rand
      ≤ defaultErrorHandler.max_delay * (1 + defaultErrorHandler.jitter_factor) := by
  have hguard : isRateLimitWithRetryAfter (some e) = false := by
    unfold isRateLimitWithRetryAfter
    simp [hk]
  constructor
  · unfold exponentialDelay defaultErrorHandler
    simp only [one_mul]
    refine min_le_min ?_ le_rfl
    exact pow_le_pow_right₀ (by norm_num) (Nat.le_succ retry_count)
  · unfold get_retry_delay
    rw [hguard]
    simp only [Bool.false_eq_true, if_false]
    have hd0 : 0 ≤ exponentialDelay defaultErrorHandler retry_count := by
      unfold exponentialDelay defaultErrorHandler
      simp only
      exact le_min (by positivity) (by norm_num)
    have hdM : exponentialDelay defaultErrorHandler retry_count
        ≤ defaultErrorHandler.max_delay :=
      min_le_right _ _
    have hrm : exponentialDelay defaultErrorHandler retry_count * rand
        ≤ defaultErrorHandler.max_delay * 1 :=
      mul_le_mul hdM h1 h0 (by unfold defaultErrorHandler; norm_num)
    unfold defaultErrorHandler at *
    simp only at *
    nlinarith

/-- Witness for `backoff_monotone_and_bounded`: a network error at
attempt 2 with jitter draw 1/2. -/
theorem backoff_monotone_and_bounded_witness :
    ({ kind := ErrKind.network, message := "Network error: x".data,
       retryAfter := none } : ClassifiedError).kind ≠ ErrKind.rateLimit ∧
    (0 : ℚ) ≤ 1/2 ∧ (1/2 : ℚ) ≤ 1 ∧
    (exponentialDelay defaultErrorHandler 2 ≤ exponentialDelay defaultErrorHandler 3 ∧
     get_retry_delay defaultErrorHandler 2
       (some { kind := ErrKind.network, message := "Network error: x".data,
               retryAfter := none }) (1/2)
       ≤ defaultErrorHandler.max_delay * (1 + defaultErrorHandler.jitter_factor)) :=
  ⟨by decide, by norm_num, by norm_num,
   backoff_monotone_and_bounded
     { kind := ErrKind.network, message := "Network error: x".data, retryAfter := none }
     2 (1/2) (by decide) (by norm_num) (by norm_num)⟩

/-! ### Resume store (`src/services/download_manager.py` lines 131-294)

The filesystem is modelled as a partial map from path to file size
(`os.path.exists` = membership, `os.path.getsize` = lookup; a raised
`OSError` corresponds to the path disappearing, i.e. `none`).  The
resume directory is modelled as a partial map from URL to stored record:
the on-disk key is `resume_<md5(url)>.pkl`, so keying by the URL itself
models md5 as an injective name encoding. -/

/-- The filesystem: path → size of the file at that path, if any. -/
def FileSys : Type := Str → Option Nat

/-- `ResumeState` (`src/services/download_manager.py` lines 131-143).
The free-form `metadata` dictionary is carried opaquely by the source
and never read by any modelled operation; it is omitted. -/
structure ResumeState : Type where
  url : Str
  video_id : Str
  title : Str
  output_path : Str
  partial_file_path : Str
  downloaded_bytes : Nat
  total_bytes : Nat
  last_modified : ℚ
  config_hash : Str

/-- `ResumeState.is_valid` (lines 145-155): the partial file must exist
and its actual size must equal the recorded `downloaded_bytes`. -/
def ResumeState.is_valid (st : ResumeState) (fs : FileSys) : Bool :=
  match fs st.partial_file_path with
  | none => false
  | some actual_size => decide (actual_size = st.downloaded_bytes)

/-- The resume directory: url → pickled `ResumeState`, if any. -/
def ResumeStore : Type := Str → Option ResumeState

/-- `ResumeHandler.clear_resume_state` (lines 234-242): deletes the
record file for `url`. -/
def clear_resume_state (s : ResumeStore) (url : Str) : ResumeStore :=
  fun u => if u = url then none else s u

/-- `ResumeHandler.load_resume_state` (lines 208-232): returns the
stored record if present and valid; an invalid (or unreadable) record is
removed and `None` is returned.  The result pairs the returned value
with the store after the call. -/
def load_resume_state (fs : FileSys) (s : ResumeStore) (url : Str) :
    Option ResumeState × ResumeStore :=
  match s url with
  | none => (none, s)
  | some st =>
    if st.is_valid fs then (some st, s)
    else (none, clear_resume_state s url)

/-- `ResumeHandler._get_config_hash` (lines 177-180): the fingerprint is
`md5(f"{quality}_{format_preference}_{output_directory}")`; md5 is
modelled as an injective encoding, so the fingerprint is the composed
string itself.  Equal composed strings have equal md5 digests, so every
collision exhibited on the composed strings is a genuine collision of
the source's fingerprints. -/
def get_config_hash (config : DownloadConfig) : Str :=
  config.quality ++ "_".data ++ config.format_preference ++ "_".data
    ++ config.output_directory

/-- `ResumeHandler.can_resume` (lines 244-257): loads the record and
rejects it (clearing the store entry) when the stored fingerprint
differs from the current configuration's fingerprint. -/
def can_resume (fs : FileSys) (s : ResumeStore) (url : Str) (config : DownloadConfig) :
    Bool × ResumeStore :=
  match load_resume_state fs s url with
  | (none, s1) => (false, s1)
  | (some st, s1) =>
    if st.config_hash ≠ get_config_hash config then (false, clear_resume_state s1 url)
    else (true, s1)

/-- The validity bit unfolded: `is_valid` holds exactly when the partial
file exists with size equal to `downloaded_bytes`. -/
theorem is_valid_iff (st : ResumeState) (fs : FileSys) :
    st.is_valid fs = true ↔ fs st.partial_file_path = some st.downloaded_bytes := by
  unfold ResumeState.is_valid
  cases h : fs st.partial_file_path <;> simp

/-- C5: `load_resume_state` returns `none` when no record exists; when
the stored record is invalid (partial file missing or size mismatch) it
returns `none` AND removes the record from the store; and it returns a
checkpoint only when the partial file exists with size exactly
`downloaded_bytes`. -/
theorem load_resume_state_spec (fs : FileSys) (s : ResumeStore) (url : Str) :
    (s url = none → (load_resume_state fs s url).1 = none) ∧
    (∀ st, s url = some st → st.is_valid fs = false →
      (load_resume_state fs s url).1 = none ∧
      (load_resume_state fs s url).2 url = none) ∧
    (∀ st, (load_resume_state fs s url).1 = some st →
      fs st.partial_file_path = some st.downloaded_bytes) := by
  refine ⟨?_, ?_, ?_⟩
  · intro hnone
    unfold load_resume_state
    rw [hnone]
  · intro st hst hinvalid
    unfold load_resume_state
    rw [hst]
    simp [hinvalid, clear_resume_state]
  · intro st hload
    unfold load_resume_state at hload
    cases hs : s url with
    | none => rw [hs] at hload; exact absurd hload (by simp)
    | some st0 =>
      rw [hs] at hload
      dsimp only at hload
      by_cases hv : st0.is_valid fs
      · rw [if_pos hv] at hload
        have hss : st0 = st := by simpa using hload
        subst hss
        exact (is_valid_iff st0 fs).mp hv
      · rw [if_neg hv] at hload
        exact absurd hload (by simp)

/-- Concrete record for the `load_resume_state_spec` witness: claims
500000 downloaded bytes. -/
def witnessResumeState : ResumeState :=
  { url := "https://example/v".data, video_id := "v".data, title := "t".data,
    output_path := "out/t.mp4".data, partial_file_path := "out/t.mp4.part".data,
    downloaded_bytes := 500000, total_bytes := 1000000, last_modified := 0,
    config_hash := "best_mp4_out".data }

/-- Concrete filesystem for the `load_resume_state_spec` witness: the
partial file exists but holds only 400000 bytes. -/
def witnessFS : FileSys :=
  fun p => if p = "out/t.mp4.part".data then some 400000 else none

/-- Concrete store for the `load_resume_state_spec` witness. -/
def witnessStore : ResumeStore :=
  fun u => if u = "https://example/v".data then some witnessResumeState else none

/-- Witness for `load_resume_state_spec`: a stored record whose partial
file size (400000) differs from its recorded `downloaded_bytes`
(500000) is rejected and removed. -/
theorem load_resume_state_spec_witness :
    (witnessStore ("https://example/v".data) = some witnessResumeState ∧
      witnessResumeState.is_valid witnessFS = false) ∧
    ((load_resume_state witnessFS witnessStore ("https://example/v".data)).1 = none ∧
      (load_resume_state witnessFS witnessStore ("https://example/v".data)).2
        ("https://example/v".data) = none) :=
  ⟨⟨rfl, by decide⟩,
   (load_resume_state_spec witnessFS witnessStore ("https://example/v".data)).2.1
     witnessResumeState rfl (by decide)⟩

/-- A `DownloadConfig` with the dataclass defaults of
`src/models/core.py` lines 46-62, overriding quality, format preference
and output directory. -/
def configWith (quality format_preference output_directory : Str) : DownloadConfig :=
  { output_directory := output_directory, quality := quality,
    format_preference := format_preference, audio_format := "mp3".data,
    split_timestamps := false, max_parallel_downloads := 3, save_thumbnails := true,
    save_metadata := true, resume_downloads := true, retry_attempts := 3,
    download_subtitles := false, subtitle_languages := ["en".data],
    subtitle_format := "srt".data, auto_generated_subtitles := true,
    use_archive := true, skip_duplicates := true }

/-- Lists that agree up to their first `'_'` separator have equal
prefixes, provided neither prefix contains `'_'` itself. -/
theorem append_underscore_inj (q1 : Str) :
    ∀ (q2 r1 r2 : Str), '_' ∉ q1 → '_' ∉ q2 →
      q1 ++ '_' :: r1 = q2 ++ '_' :: r2 → q1 = q2 := by
  induction q1 with
  | nil =>
    intro q2 r1 r2 _ h2 heq
    cases q2 with
    | nil => rfl
    | cons b t =>
      exfalso
      simp only [List.nil_append, List.cons_append, List.cons.injEq] at heq
      exact h2 (heq.1 ▸ List.mem_cons_self b t)
  | cons a q ih =>
    intro q2 r1 r2 h1 h2 heq
    cases q2 with
    | nil =>
      exfalso
      simp only [List.nil_append, List.cons_append, List.cons.injEq] at heq
      exact h1 (heq.1 ▸ List.mem_cons_self a q)
    | cons b t =>
      simp only [List.cons_append, List.cons.injEq] at heq
      have hq : q = t :=
        ih t r1 r2 (fun hm => h1 (List.mem_cons_of_mem a hm))
          (fun hm => h2 (List.mem_cons_of_mem b hm)) heq.2
      rw [heq.1, hq]

/-- The fingerprint re-associated around its first separator. -/
theorem get_config_hash_eq (config : DownloadConfig) :
    get_config_hash config
      = config.quality
        ++ '_' :: (config.format_preference ++ '_' :: config.output_directory) := by
  unfold get_config_hash
  rw [show ("_".data) = ['_'] from rfl]
  simp [List.append_assoc]

/-- Fingerprints of configurations with different underscore-free
quality values differ. -/
theorem config_hash_ne_of_quality_ne (c1 c2 : DownloadConfig)
    (hq : c1.quality ≠ c2.quality) (h1 : '_' ∉ c1.quality) (h2 : '_' ∉ c2.quality) :
    get_config_hash c1 ≠ get_config_hash c2 := by
  intro heq
  rw [get_config_hash_eq, get_config_hash_eq] at heq
  exact hq (append_underscore_inj c1.quality c2.quality _ _ h1 h2 heq)

/-- C6 (amended): for underscore-free quality strings, a checkpoint
saved under a configuration with a different quality is never accepted:
`can_resume` sees differing fingerprints, reports `False`, and removes
the checkpoint. -/
theorem resume_fingerprint_isolation (fs : FileSys) (s : ResumeStore) (url : Str)
    (c1 c2 : DownloadConfig) (st : ResumeState)
    (hst : s url = some st) (hhash : st.config_hash = get_config_hash c1)
    (hq : c1.quality ≠ c2.quality) (h1 : '_' ∉ c1.quality) (h2 : '_' ∉ c2.quality) :
    (can_resume fs s url c2).1 = false ∧ (can_resume fs s url c2).2 url = none := by
  have hne : st.config_hash ≠ get_config_hash c2 := by
    rw [hhash]
    exact config_hash_ne_of_quality_ne c1 c2 hq h1 h2
  unfold can_resume load_resume_state
  rw [hst]
  cases hv : st.is_valid fs <;>
    simp [hv, hne, clear_resume_state]

/-- Stored record for the C6 theorems: fingerprint taken from a
`quality="720p"` configuration, with a matching on-disk partial file. -/
def fingerprintResumeState : ResumeState :=
  { url := "https://example/w".data, video_id := "w".data, title := "t2".data,
    output_path := "out/t2.mp4".data, partial_file_path := "out/t2.mp4.part".data,
    downloaded_bytes := 1000, total_bytes := 2000, last_modified := 0,
    config_hash := get_config_hash (configWith ("720p".data) ("mp4".data) ("out".data)) }

/-- Filesystem for the C6 theorems: the partial file has exactly its
recorded size, so validity never interferes with the fingerprint check. -/
def fingerprintFS : FileSys :=
  fun p => if p = "out/t2.mp4.part".data then some 1000 else none

/-- Store for the C6 theorems. -/
def fingerprintStore : ResumeStore :=
  fun u => if u = "https://example/w".data then some fingerprintResumeState else none

/-- Witness for `resume_fingerprint_isolation`: a checkpoint saved under
`quality="720p"` is rejected and cleared when loaded under
`quality="1080p"` (same format and output directory). -/
theorem resume_fingerprint_isolation_witness :
    (fingerprintStore ("https://example/w".data) = some fingerprintResumeState ∧
      fingerprintResumeState.config_hash
        = get_config_hash (configWith ("720p".data) ("mp4".data) ("out".data)) ∧
      (configWith ("720p".data) ("mp4".data) ("out".data)).quality
        ≠ (configWith ("1080p".data) ("mp4".data) ("out".data)).quality ∧
      '_' ∉ (configWith ("720p".data) ("mp4".data) ("out".data)).quality ∧
      '_' ∉ (configWith ("1080p".data) ("mp4".data) ("out".data)).quality) ∧
    ((can_resume fingerprintFS fingerprintStore ("https://example/w".data)
        (configWith ("1080p".data) ("mp4".data) ("out".data))).1 = false ∧
      (can_resume fingerprintFS fingerprintStore ("https://example/w".data)
        (configWith ("1080p".data) ("mp4".data) ("out".data))).2
        ("https://example/w".data) = none) :=
  ⟨⟨rfl, rfl, by decide, by decide, by decide⟩,
   resume_fingerprint_isolation fingerprintFS fingerprintStore ("https://example/w".data)
     (configWith ("720p".data) ("mp4".data) ("out".data))
     (configWith ("1080p".data) ("mp4".data) ("out".data))
     fingerprintResumeState rfl rfl (by decide) (by decide) (by decide)⟩

/-- Counterexample to C6 as stated: the fingerprint concatenates
quality, format preference and output directory with `'_'` separators
and nothing escapes the separator, so `quality="a"`,
`format_preference="b_c"` and `quality="a_b"`, `format_preference="c"`
produce the SAME composed string `"a_b_c_d"`; md5 of equal strings is
equal, so the two fingerprints coincide and `can_resume` accepts the
checkpoint saved under the other configuration. -/
theorem resume_fingerprint_counterexample :
    (configWith ("a".data) ("b_c".data) ("d".data)).quality
      ≠ (configWith ("a_b".data) ("c".data) ("d".data)).quality ∧
    get_config_hash (configWith ("a".data) ("b_c".data) ("d".data))
      = get_config_hash (configWith ("a_b".data) ("c".data) ("d".data)) ∧
    (can_resume
      (fun p => if p = "q.part".data then some 77 else none)
      (fun u => if u = "https://example/q".data then
        some { url := "https://example/q".data, video_id := "q".data, title := "q".data,
               output_path := "q.mp4".data, partial_file_path := "q.part".data,
               downloaded_bytes := 77, total_bytes := 154, last_modified := 0,
               config_hash :=
                 get_config_hash (configWith ("a".data) ("b_c".data) ("d".data)) }
        else none)
      ("https://example/q".data)
      (configWith ("a_b".data) ("c".data) ("d".data))).1 = true := by
  refine ⟨by decide, by decide, ?_⟩
  rfl

/-! ### Resume checkpoint trigger
(`DownloadManager._create_progress_hook_with_resume`,
`src/services/download_manager.py` lines 1200-1211) -/

/-- Python's float modulo `x % y` for positive `y`:
`x - y * floor(x / y)`. -/
def pymod (x y : ℚ) : ℚ := x - y * (⌊x / y⌋ : ℚ)

/-- The save decision inside the progress hook (lines 1200-1211): under
the guard `total_bytes > 0 and downloaded_bytes > 0`, `should_save` is
set when `progress % 5 < 1` (with `progress = downloaded_bytes /
total_bytes * 100`) or when
`downloaded_bytes % (10 * 1024 * 1024) < 1024 * 1024`. -/
def shouldSaveResumeState (downloaded_bytes total_bytes : Nat) : Bool :=
  if 0 < total_bytes ∧ 0 < downloaded_bytes then
    decide (pymod ((downloaded_bytes : ℚ) / (total_bytes : ℚ) * 100) 5 < 1)
      || decide (downloaded_bytes % (10 * 1024 * 1024) < 1024 * 1024)
  else false

/-- The trigger as C2 words it, following the spec's design note: save
when, since the last save (at `prev_downloaded` bytes), the downloaded
fraction advanced by at least 5% or the downloaded bytes advanced by at
least 10 MiB.  Stated for comparison with `shouldSaveResumeState`; the
source does not track the last save at all. -/
def specDeltaSaveTrigger (prev_downloaded downloaded_bytes total_bytes : Nat) : Bool :=
  decide (((downloaded_bytes : ℚ) - (prev_downloaded : ℚ)) / (total_bytes : ℚ) ≥ 5 / 100)
    || decide ((downloaded_bytes : ℤ) - (prev_downloaded : ℤ) ≥ 10 * 1024 * 1024)

/-- The percent-modulo condition characterized without `pymod`: the
value lies within 1 unit above a multiple of 5. -/
theorem pymod_five_lt_one_iff (x : ℚ) :
    pymod x 5 < 1 ↔ ∃ k : ℤ, 5 * (k : ℚ) ≤ x ∧ x < 5 * (k : ℚ) + 1 := by
  unfold pymod
  constructor
  · intro h
    refine ⟨⌊x / 5⌋, ?_, by linarith⟩
    have hfl := Int.floor_le (x / 5)
    have hx : 5 * (x / 5) = x := by ring
    nlinarith
  · rintro ⟨k, h1, h2⟩
    have hf : ⌊x / 5⌋ = k := by
      rw [Int.floor_eq_iff]
      constructor
      · rw [le_div_iff₀ (by norm_num : (0:ℚ) < 5)]
        linarith
      · rw [div_lt_iff₀ (by norm_num : (0:ℚ) < 5)]
        linarith
    rw [hf]
    linarith

/-- The byte-modulo condition characterized without `%`: the byte count
lies within 1 MiB above a multiple of 10 MiB. -/
theorem mod_tenMiB_lt_iff (d : ℕ) :
    d % (10 * 1024 * 1024) < 1024 * 1024 ↔
      ∃ m : ℕ, 10 * 1024 * 1024 * m ≤ d ∧ d < 10 * 1024 * 1024 * m + 1024 * 1024 := by
  constructor
  · intro h
    exact ⟨d / (10 * 1024 * 1024), by omega⟩
  · rintro ⟨m, h1, h2⟩
    omega

/-- C2 (amended): a checkpoint save is triggered exactly when the byte
counts are positive and either the current progress percentage lies
within 1 percentage point above a multiple of 5, or the current
downloaded byte count lies within 1 MiB above a multiple of 10 MiB - a
modulo test on the current values, with no reference to the progress at
the previous save. -/
theorem resume_save_trigger_characterization (downloaded_bytes total_bytes : Nat) :
    shouldSaveResumeState downloaded_bytes total_bytes = true ↔
      (0 < total_bytes ∧ 0 < downloaded_bytes ∧
        ((∃ k : ℤ, 5 * (k : ℚ) ≤ (downloaded_bytes : ℚ) / (total_bytes : ℚ) * 100 ∧
            (downloaded_bytes : ℚ) / (total_bytes : ℚ) * 100 < 5 * (k : ℚ) + 1) ∨
          (∃ m : ℕ, 10 * 1024 * 1024 * m ≤ downloaded_bytes ∧
            downloaded_bytes < 10 * 1024 * 1024 * m + 1024 * 1024))) := by
  unfold shouldSaveResumeState
  by_cases hpos : 0 < total_bytes ∧ 0 < downloaded_bytes
  · rw [if_pos hpos]
    simp only [Bool.or_eq_true, decide_eq_true_eq,
      pymod_five_lt_one_iff, mod_tenMiB_lt_iff]
    simp [hpos]
  · rw [if_neg hpos]
    simp [hpos]
    intro h1 h2
    exact absurd ⟨h1, h2⟩ hpos

/-- Counterexample to C2 as stated: with the last save taken at
1000000 bytes and the current callback reporting 8000000 of 100000000
bytes, the downloaded fraction has advanced by 7% >= 5% - so the
delta-threshold trigger of the claim fires - yet the source saves
nothing: progress is 8.0, `8.0 % 5 = 3.0 >= 1`, and
`8000000 % 10485760 = 8000000 >= 1048576`. -/
theorem resume_save_trigger_counterexample :
    specDeltaSaveTrigger 1000000 8000000 100000000 = true ∧
    shouldSaveResumeState 8000000 100000000 = false := by
  constructor
  · unfold specDeltaSaveTrigger
    rw [Bool.or_eq_true]
    left
    rw [decide_eq_true_eq]
    norm_num
  · unfold shouldSaveResumeState
    rw [if_pos (by norm_num)]
    have h1 : pymod ((8000000 : ℚ) / (100000000 : ℚ) * 100) 5 = 3 := by
      have hv : ((8000000 : ℚ) / (100000000 : ℚ) * 100) = 8 := by norm_num
      unfold pymod
      rw [hv]
      have hf : ⌊(8 : ℚ) / 5⌋ = 1 := by
        rw [Int.floor_eq_iff]
        norm_num
      rw [hf]
      norm_num
    have h2 : (8000000 : ℕ) % (10 * 1024 * 1024) = 8000000 := by norm_num
    rw [Bool.or_eq_false_iff]
    constructor
    · rw [decide_eq_false_iff_not]
      push_cast
      rw [h1]
      norm_num
    · rw [decide_eq_false_iff_not, h2]
      norm_num

/-! ### Progress aggregation (`ProgressReporter`,
`src/services/download_manager.py` lines 297-543)

Python's insertion-ordered `dict` of active downloads is modelled as an
association list: assignment to an existing key replaces in place,
assignment to a fresh key appends, `del` removes.  `DownloadProgress`
keeps every field that carries download state; `start_time` (wall-clock
only, feeding elapsed-time display) and `worker_id` (never assigned) are
omitted.  Display emission (`_update_display`, throttled by
`_last_update`) never touches the counters and is omitted. -/

/-- `DownloadProgress` (lines 297-309). -/
structure DownloadProgress : Type where
  url : Str
  title : Str
  status : Str
  progress_percent : ℚ
  download_speed : Str
  eta : Str
  downloaded_bytes : Int
  total_bytes : Int

/-- The `_overall_stats` dictionary (lines 343-351); `start_time` is
wall-clock only and omitted. -/
structure OverallStats : Type where
  total_files : Int
  completed_files : Int
  failed_files : Int
  total_bytes : Int
  downloaded_bytes : Int
  active_downloads : Int

/-- The `ProgressReporter` state (lines 334-351): active downloads,
completed downloads, overall statistics. -/
structure ProgressReporter : Type where
  active : List (Str × DownloadProgress)
  completed : List DownloadProgress
  stats : OverallStats

/-- `ProgressReporter.__init__`: empty maps, zeroed statistics. -/
def initReporter : ProgressReporter :=
  { active := [], completed := [],
    stats := { total_files := 0, completed_files := 0, failed_files := 0,
               total_bytes := 0, downloaded_bytes := 0, active_downloads := 0 } }

/-- Lookup in the insertion-ordered dictionary (`url in dict` /
`dict[url]`). -/
def dictLookup (l : List (Str × DownloadProgress)) (k : Str) : Option DownloadProgress :=
  match l with
  | [] => none
  | (k1, p) :: t => if k1 = k then some p else dictLookup t k

/-- Assignment `dict[k] = p`: replace in place if present, else append. -/
def dictInsert (l : List (Str × DownloadProgress)) (k : Str) (p : DownloadProgress) :
    List (Str × DownloadProgress) :=
  match l with
  | [] => [(k, p)]
  | (k1, p1) :: t => if k1 = k then (k, p) :: t else (k1, p1) :: dictInsert t k p

/-- Deletion `del dict[k]`. -/
def dictErase (l : List (Str × DownloadProgress)) (k : Str) :
    List (Str × DownloadProgress) :=
  match l with
  | [] => []
  | (k1, p1) :: t => if k1 = k then t else (k1, p1) :: dictErase t k

/-- `ProgressReporter.start_download` (lines 353-371). -/
def start_download (r : ProgressReporter) (url title : Str) (total_bytes : Int) :
    ProgressReporter :=
  let p : DownloadProgress :=
    { url := url, title := title, status := "starting".data, progress_percent := 0,
      download_speed := "0 MB/s".data, eta := "Unknown".data,
      downloaded_bytes := 0, total_bytes := total_bytes }
  { active := dictInsert r.active url p,
    completed := r.completed,
    stats := { r.stats with
      total_files := r.stats.total_files + 1,
      total_bytes := r.stats.total_bytes + total_bytes,
      active_downloads := r.stats.active_downloads + 1 } }

/-- `ProgressReporter.update_download` (lines 373-399): an unknown url
is ignored; otherwise the entry is updated and the aggregate
`downloaded_bytes` advances by the delta `downloaded - old_downloaded`.
(The throttled `_update_display` call does not touch the counters.) -/
def update_download (r : ProgressReporter) (url : Str) (downloaded_bytes total_bytes : Int)
    (speed eta status : Str) : ProgressReporter :=
  match dictLookup r.active url with
  | none => r
  | some p =>
    let p1 : DownloadProgress :=
      { p with
        downloaded_bytes := downloaded_bytes,
        total_bytes := max p.total_bytes total_bytes,
        download_speed := speed, eta := eta, status := status,
        progress_percent :=
          if 0 < total_bytes then (downloaded_bytes : ℚ) / (total_bytes : ℚ) * 100
          else p.progress_percent }
    { r with
      active := dictInsert r.active url p1,
      stats := { r.stats with
        downloaded_bytes := r.stats.downloaded_bytes + (downloaded_bytes - p.downloaded_bytes) } }

/-- `ProgressReporter.complete_download` (lines 401-428): an unknown url
is ignored; otherwise the entry - with `downloaded_bytes` and
`total_bytes` overridden by `final_size` when that is positive - moves
to the completed list, and the file counters are updated.  Note that
the aggregate `downloaded_bytes` statistic is NOT touched here. -/
def complete_download (r : ProgressReporter) (url : Str) (success : Bool)
    (final_size : Int) : ProgressReporter :=
  match dictLookup r.active url with
  | none => r
  | some p =>
    let p1 : DownloadProgress :=
      { p with
        status := if success then "completed".data else "failed".data,
        progress_percent := if success then 100 else p.progress_percent }
    let p2 : DownloadProgress :=
      if 0 < final_size then { p1 with downloaded_bytes := final_size, total_bytes := final_size }
      else p1
    { active := dictErase r.active url,
      completed := r.completed ++ [p2],
      stats := { r.stats with
        completed_files := r.stats.completed_files + (if success then 1 else 0),
        failed_files := r.stats.failed_files + (if success then 0 else 1),
        active_downloads := r.stats.active_downloads - 1 } }

/-- Sum of the downloaded bytes over an active map. -/
def activeSum (l : List (Str × DownloadProgress)) : Int :=
  (l.map (fun e => e.2.downloaded_bytes)).sum

/-- Following the spec's words for C4: the aggregate obtained by
re-summing the downloaded bytes of all tracked downloads (the active
ones and the completed ones). -/
def resummedDownloadedBytes (r : ProgressReporter) : Int :=
  activeSum r.active + (r.completed.map (fun p => p.downloaded_bytes)).sum

/-- One call on the reporter. -/
inductive ReporterOp : Type where
  | start (url title : Str) (total_bytes : Int) : ReporterOp
  | update (url : Str) (downloaded_bytes total_bytes : Int)
      (speed eta status : Str) : ReporterOp
  | complete (url : Str) (success : Bool) (final_size : Int) : ReporterOp

/-- Apply one call. -/
def applyOp (r : ProgressReporter) : ReporterOp → ProgressReporter
  | .start url title tb => start_download r url title tb
  | .update url db tb sp et stt => update_download r url db tb sp et stt
  | .complete url ok fsz => complete_download r url ok fsz

/-- Run a sequence of calls. -/
def runOps (r : ProgressReporter) : List ReporterOp → ProgressReporter
  | [] => r
  | op :: t => runOps (applyOp r op) t

/-- Well-formedness of one call in a given state: `start` targets a url
not currently active, and `complete` passes `final_size` equal to 0 or
to the entry's current downloaded byte count. -/
def stepOk (r : ProgressReporter) : ReporterOp → Bool
  | .start url _ _ => (dictLookup r.active url).isNone
  | .update _ _ _ _ _ _ => true
  | .complete url _ final_size =>
    match dictLookup r.active url with
    | none => true
    | some p => decide (final_size = 0 ∨ final_size = p.downloaded_bytes)

/-- Well-formedness of a whole call sequence from a given state. -/
def validOps (r : ProgressReporter) : List ReporterOp → Bool
  | [] => true
  | op :: t => stepOk r op && validOps (applyOp r op) t


/-- Inserting under a fresh key appends its bytes to the sum. -/
theorem activeSum_insert_of_lookup_none (l : List (Str × DownloadProgress)) (k : Str)
    (p : DownloadProgress) (h : dictLookup l k = none) :
    activeSum (dictInsert l k p) = activeSum l + p.downloaded_bytes := by
  induction l with
  | nil => simp [dictInsert, activeSum]
  | cons e t ih =>
    obtain ⟨k1, p1⟩ := e
    unfold dictLookup at h
    unfold dictInsert
    by_cases hk : k1 = k
    · rw [if_pos hk] at h
      exact absurd h (by simp)
    · rw [if_neg hk] at h
      rw [if_neg hk]
      simp only [activeSum, List.map_cons, List.sum_cons] at *
      rw [ih h]
      ring

/-- Replacing the entry found under `k` adjusts the sum by the
difference. -/
theorem activeSum_insert_of_lookup_some (l : List (Str × DownloadProgress)) (k : Str)
    (p q : DownloadProgress) (h : dictLookup l k = some q) :
    activeSum (dictInsert l k p)
      = activeSum l - q.downloaded_bytes + p.downloaded_bytes := by
  induction l with
  | nil => exact absurd h (by simp [dictLookup])
  | cons e t ih =>
    obtain ⟨k1, p1⟩ := e
    unfold dictLookup at h
    unfold dictInsert
    by_cases hk : k1 = k
    · rw [if_pos hk] at h
      rw [if_pos hk]
      have : p1 = q := by simpa using h
      subst this
      simp only [activeSum, List.map_cons, List.sum_cons]
      ring
    · rw [if_neg hk] at h
      rw [if_neg hk]
      simp only [activeSum, List.map_cons, List.sum_cons] at *
      rw [ih h]
      ring

/-- Erasing the entry found under `k` removes its bytes from the sum. -/
theorem activeSum_erase_of_lookup_some (l : List (Str × DownloadProgress)) (k : Str)
    (q : DownloadProgress) (h : dictLookup l k = some q) :
    activeSum (dictErase l k) = activeSum l - q.downloaded_bytes := by
  induction l with
  | nil => exact absurd h (by simp [dictLookup])
  | cons e t ih =>
    obtain ⟨k1, p1⟩ := e
    unfold dictLookup at h
    unfold dictErase
    by_cases hk : k1 = k
    · rw [if_pos hk] at h
      rw [if_pos hk]
      have : p1 = q := by simpa using h
      subst this
      simp only [activeSum, List.map_cons, List.sum_cons]
      ring
    · rw [if_neg hk] at h
      rw [if_neg hk]
      simp only [activeSum, List.map_cons, List.sum_cons] at *
      rw [ih h]
      ring

/-- The incremental/re-summed agreement invariant. -/
def reporterInv (r : ProgressReporter) : Prop :=
  r.stats.downloaded_bytes = resummedDownloadedBytes r

/-- Every well-formed call preserves the agreement invariant. -/
theorem applyOp_preserves_inv (r : ProgressReporter) (op : ReporterOp)
    (hok : stepOk r op = true) (hinv : reporterInv r) : reporterInv (applyOp r op) := by
  unfold reporterInv resummedDownloadedBytes at *
  cases op with
  | start url title tb =>
    have hnone : dictLookup r.active url = none := by
      unfold stepOk at hok
      simpa [Option.isNone_iff_eq_none] using hok
    simp only [applyOp, start_download]
    rw [activeSum_insert_of_lookup_none _ _ _ hnone]
    dsimp only
    rw [hinv]
    ring
  | update url db tb sp et stt =>
    cases hlu : dictLookup r.active url with
    | none =>
      simp only [applyOp, update_download, hlu]
      exact hinv
    | some p =>
      simp only [applyOp, update_download, hlu]
      rw [activeSum_insert_of_lookup_some _ _ _ _ hlu]
      dsimp only
      rw [hinv]
      ring
  | complete url ok fsz =>
    cases hlu : dictLookup r.active url with
    | none =>
      simp only [applyOp, complete_download, hlu]
      exact hinv
    | some p =>
      have hfs : fsz = 0 ∨ fsz = p.downloaded_bytes := by
        simp only [stepOk] at hok
        rw [hlu] at hok
        simpa using hok
      by_cases hpos : 0 < fsz
      · have hfs2 : fsz = p.downloaded_bytes := by
          rcases hfs with hfs | hfs
          · omega
          · exact hfs
        simp only [applyOp, complete_download, hlu, if_pos hpos]
        rw [activeSum_erase_of_lookup_some _ _ _ hlu]
        simp only [List.map_append, List.sum_append, List.map_cons, List.map_nil,
          List.sum_cons, List.sum_nil]
        rw [hinv, hfs2]
        ring
      · simp only [applyOp, complete_download, hlu, if_neg hpos]
        rw [activeSum_erase_of_lookup_some _ _ _ hlu]
        simp only [List.map_append, List.sum_append, List.map_cons, List.map_nil,
          List.sum_cons, List.sum_nil]
        rw [hinv]
        ring

/-- The invariant holds after any well-formed run from any state
satisfying it. -/
theorem reporterInv_runOps (ops : List ReporterOp) :
    ∀ r : ProgressReporter, validOps r ops = true → reporterInv r →
      reporterInv (runOps r ops) := by
  induction ops with
  | nil =>
    intro r _ hinv
    simpa [runOps] using hinv
  | cons op t ih =>
    intro r hv hinv
    simp only [validOps, Bool.and_eq_true] at hv
    simpa [runOps] using ih (applyOp r op) hv.2 (applyOp_preserves_inv r op hv.1 hinv)

/-- C4 (amended): for every well-formed sequence of `start_download`,
`update_download` and `complete_download` calls - each `start` targets a
url not already active, and each `complete` passes `final_size` equal to
0 or to the entry's current downloaded byte count - the incrementally
maintained aggregate `downloaded_bytes` statistic equals the value
obtained by re-summing the downloaded bytes of all tracked (active and
completed) downloads. -/
theorem progress_aggregate_eq_resummed (ops : List ReporterOp)
    (hvalid : validOps initReporter ops = true) :
    (runOps initReporter ops).stats.downloaded_bytes
      = resummedDownloadedBytes (runOps initReporter ops) :=
  reporterInv_runOps ops initReporter hvalid
    (by unfold reporterInv resummedDownloadedBytes activeSum initReporter; simp)

/-- Concrete well-formed trace for the C4 witness: one download started,
updated to 100 of 200 bytes, completed with `final_size` equal to its
current 100 bytes. -/
def reporterWitnessOps : List ReporterOp :=
  [.start ("u".data) ("title".data) 200,
   .update ("u".data) 100 200 ("1.0 MB/s".data) ("5s".data) ("downloading".data),
   .complete ("u".data) true 100]

/-- Witness for `progress_aggregate_eq_resummed` on the concrete
trace. -/
theorem progress_aggregate_eq_resummed_witness :
    validOps initReporter reporterWitnessOps = true ∧
    (runOps initReporter reporterWitnessOps).stats.downloaded_bytes
      = resummedDownloadedBytes (runOps initReporter reporterWitnessOps) :=
  ⟨by decide, progress_aggregate_eq_resummed reporterWitnessOps (by decide)⟩

/-- Trace refuting C4 as stated: the final `complete_download` reports a
`final_size` (500) different from the last update (100). -/
def reporterBadOps : List ReporterOp :=
  [.start ("u".data) ("title".data) 1000,
   .update ("u".data) 100 200 ("1.0 MB/s".data) ("5s".data) ("downloading".data),
   .complete ("u".data) true 500]

/-- Counterexample to C4 as stated: after the trace `start`;
`update(downloaded=100)`; `complete(final_size=500)`, the incremental
aggregate still holds 100 - `complete_download` rewrites the entry's
bytes to 500 without touching the aggregate - while re-summing the
tracked downloads gives 500. -/
theorem progress_aggregate_counterexample :
    (runOps initReporter reporterBadOps).stats.downloaded_bytes = 100 ∧
    resummedDownloadedBytes (runOps initReporter reporterBadOps) = 500 ∧
    (100 : Int) ≠ 500 :=
  ⟨by decide, by decide, by decide⟩

/-! ### Batch download ordering (`DownloadManager.download_batch`,
`src/services/download_manager.py` lines 889-1036)

The thread pool (`ThreadPoolExecutor` plus `as_completed`) makes only
the iteration order of completed futures nondeterministic; everything a
future computes is a pure function of its URL here.  So a run of
`_download_batch_parallel` is modelled by the list of submitted
`(index, url)` pairs (`enumerate(urls)`, line 984) visited in an
arbitrary completion order: a permutation of `urls.enum`.  The download
of a single URL (`_execute_download_task` → `download_single`, including
its exception-to-failed-result wrapping, lines 1001-1020) is abstracted
as a function `download : Str → R`, and `download_playlist` as
`downloadPlaylist : Str → List R`. -/

/-- `DownloadManager._is_playlist_url` (lines 1086-1088). -/
def is_playlist_url (url : Str) : Bool :=
  containsSub (lowerStr url) ("playlist".data)
    || containsSub (lowerStr url) ("list=".data)
    || containsSub url ("/c/".data)
    || containsSub url ("/channel/".data)
    || containsSub url ("/user/".data)

/-- `DownloadManager._download_batch_parallel` (lines 974-1036): the
completed futures deliver `(index, result)` pairs in completion order
(`results.append((i, result))`, lines 1003/1018), the list is sorted by
original index (`results.sort(key=lambda x: x[0])`, line 1035 - Python's
stable sort, modelled by the stable merge sort by key), and the bare
results are returned. -/
def download_batch_parallel {R : Type} (download : Str → R)
    (completionOrder : List (Nat × Str)) : List R :=
  let collected := completionOrder.map (fun p => (p.1, download p.2))
  (collected.mergeSort (fun a b => decide (a.1 ≤ b.1))).map Prod.snd

/-- `DownloadManager._download_batch_sequential` (lines 936-972): one
result per URL, appended in submission order. -/
def download_batch_sequential {R : Type} (urls : List Str) (download : Str → R) : List R :=
  urls.map download

/-- `DownloadManager.download_batch` (lines 889-934): an empty batch
returns `[]`; otherwise the URLs are partitioned into single videos and
playlists, the single videos are processed first (in parallel when both
`_max_workers > 1` and `config.max_parallel_downloads > 1`, else
sequentially), and the playlist results are appended afterwards in
playlist submission order. -/
def download_batch {R : Type} (urls : List Str) (download : Str → R)
    (downloadPlaylist : Str → List R) (max_workers max_parallel_downloads : Int)
    (completionOrder : List (Nat × Str)) : List R :=
  if urls.isEmpty then []
  else
    (if (urls.filter (fun u => !is_playlist_url u)).isEmpty then []
     else if 1 < max_workers ∧ 1 < max_parallel_downloads then
       download_batch_parallel download completionOrder
     else
       download_batch_sequential (urls.filter (fun u => !is_playlist_url u)) download)
    ++ (urls.filter (fun u => is_playlist_url u)).flatMap downloadPlaylist

/-- Sorting a permutation of a list with strictly increasing keys by
key recovers that list. -/
theorem mergeSort_eq_of_perm_keysSorted {R : Type} (l canon : List (Nat × R))
    (hperm : l.Perm canon) (hcanon : canon.Pairwise (fun a b => a.1 < b.1)) :
    l.mergeSort (fun a b => decide (a.1 ≤ b.1)) = canon := by
  have htrans : ∀ a b c : Nat × R, decide (a.1 ≤ b.1) = true → decide (b.1 ≤ c.1) = true →
      decide (a.1 ≤ c.1) = true := by
    intro a b c h1 h2
    simp only [decide_eq_true_eq] at *
    omega
  have htotal : ∀ a b : Nat × R, (decide (a.1 ≤ b.1) || decide (b.1 ≤ a.1)) = true := by
    intro a b
    simp only [Bool.or_eq_true, decide_eq_true_eq]
    omega
  have hsorted := List.sorted_mergeSort htrans htotal l
  have hle : (l.mergeSort (fun a b => decide (a.1 ≤ b.1))).Pairwise
      (fun a b : Nat × R => a.1 ≤ b.1) := by
    refine hsorted.imp ?_
    intro a b h
    simpa using h
  have hperm2 : l.mergeSort (fun a b => decide (a.1 ≤ b.1)) |>.Perm canon :=
    (List.mergeSort_perm l _).trans hperm
  have hcnodup : (canon.map Prod.fst).Nodup := by
    rw [List.Nodup, List.pairwise_map]
    exact hcanon.imp (fun h => Nat.ne_of_lt h)
  have hnodup : ((l.mergeSort (fun a b => decide (a.1 ≤ b.1))).map Prod.fst).Nodup :=
    ((hperm2.map Prod.fst).nodup_iff).mpr hcnodup
  have hne : (l.mergeSort (fun a b => decide (a.1 ≤ b.1))).Pairwise
      (fun a b : Nat × R => a.1 ≠ b.1) := by
    rw [List.Nodup, List.pairwise_map] at hnodup
    exact hnodup
  have hlt : (l.mergeSort (fun a b => decide (a.1 ≤ b.1))).Pairwise
      (fun a b : Nat × R => a.1 < b.1) := by
    refine (hle.and hne).imp ?_
    intro a b h
    exact lt_of_le_of_ne h.1 h.2
  haveI : IsAntisymm (Nat × R) (fun a b => a.1 < b.1) :=
    ⟨fun a b h h1 => absurd h1 (Nat.lt_asymm h)⟩
  exact List.eq_of_perm_of_sorted hperm2 hlt hcanon

/-- The keys of `l.enum` are strictly increasing. -/
theorem enum_keysSorted {α : Type} (l : List α) :
    l.enum.Pairwise (fun a b : Nat × α => a.1 < b.1) := by
  have h := List.pairwise_lt_range l.length
  rw [← List.enum_map_fst l, List.pairwise_map] at h
  exact h

/-- For every completion order (any permutation of the submitted
`(index, url)` pairs), the parallel batch path returns one result per
URL in exact submission order. -/
theorem download_batch_parallel_ordered {R : Type} (urls : List Str) (download : Str → R)
    (completionOrder : List (Nat × Str)) (hco : completionOrder.Perm urls.enum) :
    download_batch_parallel download completionOrder = urls.map download := by
  unfold download_batch_parallel
  dsimp only
  have hperm : (completionOrder.map (fun p => (p.1, download p.2))).Perm
      (urls.enum.map (fun p => (p.1, download p.2))) := hco.map _
  have hkeys : (urls.enum.map (fun p => (p.1, download p.2))).Pairwise
      (fun a b : Nat × R => a.1 < b.1) := by
    rw [List.pairwise_map]
    exact enum_keysSorted urls
  rw [mergeSort_eq_of_perm_keysSorted _ _ hperm hkeys]
  rw [List.map_map]
  rw [show (Prod.snd ∘ fun p : Nat × Str => (p.1, download p.2))
      = (download ∘ Prod.snd) from rfl]
  rw [← List.map_map, List.enum_map_snd]

/-- C1 (amended): for every batch containing no playlist URLs, and for
every completion order of the parallel workers, `download_batch` returns
exactly one result per URL, ordered by original submission index,
independent of the completion order (this covers both the parallel path,
which sorts by index, and the sequential path). -/
theorem download_batch_ordered {R : Type} (urls : List Str) (download : Str → R)
    (downloadPlaylist : Str → List R) (max_workers max_parallel_downloads : Int)
    (completionOrder : List (Nat × Str))
    (hnp : ∀ u ∈ urls, is_playlist_url u = false)
    (hco : completionOrder.Perm urls.enum) :
    download_batch urls download downloadPlaylist max_workers max_parallel_downloads
      completionOrder = urls.map download := by
  unfold download_batch
  have hsingles : urls.filter (fun u => !is_playlist_url u) = urls :=
    List.filter_eq_self.mpr (fun u hu => by rw [hnp u hu]; rfl)
  have hplay : urls.filter (fun u => is_playlist_url u) = [] :=
    List.filter_eq_nil_iff.mpr (fun u hu => by rw [hnp u hu]; simp)
  rw [hsingles, hplay]
  by_cases hempty : urls.isEmpty
  · rw [if_pos hempty]
    rw [List.isEmpty_iff.mp hempty]
    rfl
  · rw [if_neg hempty, if_neg hempty]
    rw [List.flatMap_nil, List.append_nil]
    by_cases hcond : 1 < max_workers ∧ 1 < max_parallel_downloads
    · rw [if_pos hcond]
      exact download_batch_parallel_ordered urls download completionOrder hco
    · rw [if_neg hcond]
      rfl

/-- URLs for the `download_batch_ordered` witness. -/
def batchWitnessUrls : List Str :=
  ["https://e/v1".data, "https://e/v2".data, "https://e/v3".data]

/-- A completion order for the witness in which the third submission
finishes first. -/
def batchWitnessOrder : List (Nat × Str) :=
  [(2, "https://e/v3".data), (0, "https://e/v1".data), (1, "https://e/v2".data)]

/-- Witness for `download_batch_ordered`: three single-video URLs
completing out of order still come back in submission order. -/
theorem download_batch_ordered_witness :
    (∀ u ∈ batchWitnessUrls, is_playlist_url u = false) ∧
    batchWitnessOrder.Perm batchWitnessUrls.enum ∧
    download_batch batchWitnessUrls (fun u => u) (fun _ => []) 3 3 batchWitnessOrder
      = batchWitnessUrls.map (fun u => u) :=
  ⟨by decide, by decide,
   download_batch_ordered batchWitnessUrls (fun u => u) (fun _ => []) 3 3
     batchWitnessOrder (by decide) (by decide)⟩

/-- Counterexample to C1 as stated: a two-request batch whose first
request is a playlist URL and whose second is a single video.
`download_batch` processes all single videos before any playlist, so
with the playlist result being `[0]` and the video result `1`, the
returned list is `[1, 0]` - the result of submission index 1 precedes
the results of submission index 0 - while ordering by original
submission index would give `[0, 1]`. -/
theorem download_batch_order_counterexample :
    is_playlist_url ("https://e/w?list=1".data) = true ∧
    is_playlist_url ("https://e/v".data) = false ∧
    download_batch ["https://e/w?list=1".data, "https://e/v".data]
      (fun _ => (1 : Nat)) (fun _ => [0]) 3 3 [(0, "https://e/v".data)] = [1, 0] ∧
    ([1, 0] : List Nat) ≠ [0, 1] := by
  have h1 : is_playlist_url ("https://e/w?list=1".data) = true := by decide
  have h2 : is_playlist_url ("https://e/v".data) = false := by decide
  refine ⟨h1, h2, ?_, by decide⟩
  unfold download_batch download_batch_parallel
  simp [h1, h2, List.mergeSort_singleton, download_batch_sequential]
